import Mathlib

/-!
Shallow embedding of the SQLightChart pipeline (src/sql.py) and proofs of the
specified properties.  The program translates a natural-language requirement
into SQL via a text-completion oracle, executes it against a SQLite store, and
asks the oracle for an ECharts configuration of the result.

External collaborators are modelled as function parameters:
the completion oracle is a function from prompt text to raw response text
(the message content before the `.strip()` applied in `ask_openai`),
and SQL execution is a function from statement text to an execution outcome.
-/

/-- Scalar values appearing in rows of the store and in query results.
The seeded schema declares only TEXT and INTEGER columns, and every claim
concerns only these two kinds of scalars, so REAL values are omitted from
the embedding. -/
inductive Value where
  | text (s : String)
  | int (n : Int)
deriving DecidableEq, Repr

/-- Rows are ordered sequences of scalar values, as in the Python tuples. -/
abbrev Row := List Value

/-- One column of a table as reported by PRAGMA table_info: its name and its
declared type string (empty when the column has no declared type). -/
structure Column where
  name : String
  type : String
deriving DecidableEq, Repr

/-- One table of the store as recorded in sqlite_master with its table_info
columns in declared order and its current rows. -/
structure Table where
  name : String
  columns : List Column
  rows : List Row
deriving DecidableEq, Repr

/-- The store: the ordered list of entries of sqlite_master having type
table (creation order), each with its columns and rows. -/
structure Store where
  tables : List Table
deriving DecidableEq, Repr

/-- Characters removed by the Python method strip() with no arguments,
restricted to the ASCII whitespace set. -/
def pyIsSpace (c : Char) : Bool :=
  c = ' ' || c = '\t' || c = '\n' || c = '\r' || c = '\x0B' || c = '\x0C'

/-- Model of the Python method strip(): remove leading and trailing
whitespace characters. -/
def pyStrip (s : String) : String :=
  String.mk (((s.data.dropWhile pyIsSpace).reverse.dropWhile pyIsSpace).reverse)

/-- Seed rows inserted into the departments table by create_database
(src/sql.py lines 43-49). -/
def seedDepartments : List String :=
  ["Human Resources", "Engineering", "Sales", "Marketing"]

/-- Seed rows (name, age, department_id) inserted into the employees table by
create_database (src/sql.py lines 52-60). -/
def seedEmployees : List (String × Int × Int) :=
  [("Alice", 30, 2),
   ("Bob", 45, 3),
   ("Charlie", 25, 2),
   ("Diana", 35, 1),
   ("Eve", 40, 4),
   ("Frank", 50, 3)]

/-- The employees table after seeding: AUTOINCREMENT ids 1..6 and the seed
data, with the declared column types of the CREATE TABLE statement. -/
def employeesTable : Table :=
  { name := "employees"
    columns :=
      [⟨"id", "INTEGER"⟩, ⟨"name", "TEXT"⟩, ⟨"age", "INTEGER"⟩,
       ⟨"department_id", "INTEGER"⟩]
    rows := (seedEmployees.enum.map fun p =>
      [Value.int (p.1 + 1), Value.text p.2.1, Value.int p.2.2.1,
       Value.int p.2.2.2]) }

/-- The departments table after seeding: AUTOINCREMENT ids 1..4 and the seed
names. -/
def departmentsTable : Table :=
  { name := "departments"
    columns := [⟨"id", "INTEGER"⟩, ⟨"name", "TEXT"⟩]
    rows := (seedDepartments.enum.map fun p =>
      [Value.int (p.1 + 1), Value.text p.2]) }

/-- Modelled from the documented behaviour of the external SQLite store: a
table named sqlite_sequence is created automatically when an ordinary table
with an AUTOINCREMENT integer primary key is created, it is listed by
sqlite_master with type table, its two columns name and seq carry no declared
type, and after seeding it records the last AUTOINCREMENT id handed out for
each seeded table (departments rows were inserted first). -/
def sqliteSequenceTable : Table :=
  { name := "sqlite_sequence"
    columns := [⟨"name", ""⟩, ⟨"seq", ""⟩]
    rows := [[Value.text "departments", Value.int 4],
             [Value.text "employees", Value.int 6]] }

/-- The store produced by create_database on a missing database file:
employees is created first, the creation of its AUTOINCREMENT key creates
sqlite_sequence, then departments is created, and the seed rows are
inserted. -/
def seededStore : Store :=
  { tables := [employeesTable, sqliteSequenceTable, departmentsTable] }

/-- Model of create_database (src/sql.py lines 15-64) acting on the
database-file state: none means the file does not exist.  When the file
exists the function prints a message and returns without touching the store;
otherwise it creates and seeds the example schema. -/
def create_database : Option Store → Option Store
  | some st => some st
  | none => some seededStore

/-- The TEXT2SQL_PROMPT template of src/sql.py lines 68-86 with its two
format fields substituted. -/
def TEXT2SQL_PROMPT (database_schema requirement : String) : String :=
  "\n## Description\nYou are a data engineer responsible for translating management requirements into SQL statements that can be executed in SQLite.\nYou are provided with table schemas in the following format:\n"
  ++ database_schema
  ++ "\n\nIf the requirement exceeds the provided schema info, return \"BeyondError\".\n\n## Examples\nRequirement: Find the name and age of the oldest employee.\nSQL: SELECT name, age FROM employees ORDER BY age DESC LIMIT 1;\n\nRequirement: Who is my best friend?\nSQL: BeyondError\n\n## Task to solve\nRequirement: "
  ++ requirement
  ++ "\nSQL:\n"

/-- The DATA2CHART_PROMPT template of src/sql.py lines 88-102 with its two
format fields substituted. -/
def DATA2CHART_PROMPT (requirement result : String) : String :=
  "\n## Description\nYou are a JS engineer proficient in ECharts. You are provided with a requirement and SQL result.\nBased on the following rules, generate a valid ECharts option configuration (in JSON format) without extra comments:\n1. If there\x27s only one data point, use a gauge chart.\n2. If the requirement involves proportions, use a pie chart.\n3. If data is one-dimensional with <=6 data points, use a radar chart.\n4. Otherwise, use line, scatter, or multi-series bar chart as appropriate.\nAll numeric values must have at most two decimal places.\nReturn \"ChartError\" if data is empty or improperly formatted.\n\nRequirement: "
  ++ requirement
  ++ "\nSQL Result: "
  ++ result
  ++ "\nResult:\n"

/-- Model of ask_openai (src/sql.py lines 104-111): send the prompt to the
oracle and return the response content with surrounding whitespace stripped
(the trailing strip call of line 111). -/
def ask_openai (oracle : String → String) (prompt : String) : String :=
  pyStrip (oracle prompt)

/-- The Text2SQL component, holding the rendered database schema. -/
structure Text2SQL where
  database_schema : String

/-- Model of Text2SQL.gen_sql (src/sql.py lines 120-128): fill the prompt
template and ask the oracle.  The function also prints an error message when
the answer equals the sentinel, which does not affect its return value; the
print is recorded in the pipeline trace of main_run. -/
def Text2SQL.gen_sql (self : Text2SQL) (oracle : String → String)
    (requirement : String) : String :=
  ask_openai oracle (TEXT2SQL_PROMPT self.database_schema requirement)

/-- Four-digit lowercase hexadecimal rendering used by the JSON unicode
escapes of the Python json module. -/
def hex4 (n : Nat) : String :=
  let ds := Nat.toDigits 16 n
  String.mk (List.replicate (4 - ds.length) '0' ++ ds)

/-- Escaping of one character by json.dumps with its default ensure_ascii
setting: the two-character escapes for quote, backslash and the common
control characters, printable ASCII unchanged, and unicode escapes (with
surrogate pairs above the basic plane) for everything else. -/
def jsonEscapeChar (c : Char) : String :=
  if c = '"' then "\\\""
  else if c = '\\' then "\\\\"
  else if c = '\x08' then "\\b"
  else if c = '\x0C' then "\\f"
  else if c = '\n' then "\\n"
  else if c = '\r' then "\\r"
  else if c = '\t' then "\\t"
  else if 0x20 ≤ c.toNat && c.toNat ≤ 0x7E then String.singleton c
  else if c.toNat < 0x10000 then "\\u" ++ hex4 c.toNat
  else
    let n := c.toNat - 0x10000
    "\\u" ++ hex4 (0xD800 + n / 0x400) ++ "\\u" ++ hex4 (0xDC00 + n % 0x400)

/-- JSON string literal as produced by json.dumps. -/
def jsonString (s : String) : String :=
  "\"" ++ String.join (s.data.map jsonEscapeChar) ++ "\""

/-- JSON rendering of one scalar value as produced by json.dumps. -/
def Value.toJson : Value → String
  | .text s => jsonString s
  | .int n => toString n

/-- Model of json.dumps applied to the fetched result (a Python list whose
first element is the list of column names and whose remaining elements are
row tuples): a JSON array of arrays with the default item separator. -/
def jsonDumps (result : List Row) : String :=
  "[" ++ String.intercalate ", "
    (result.map fun r =>
      "[" ++ String.intercalate ", " (r.map Value.toJson) ++ "]") ++ "]"

/-- The Data2Chart component; it holds no state (src/sql.py lines 130-132). -/
structure Data2Chart where

/-- Model of Data2Chart.gen_chart (src/sql.py lines 134-137): serialize the
result with json.dumps, fill the chart prompt template and return the oracle
answer as stripped by ask_openai, with no further processing. -/
def Data2Chart.gen_chart (_self : Data2Chart) (oracle : String → String)
    (requirement : String) (result : List Row) : String :=
  ask_openai oracle (DATA2CHART_PROMPT requirement (jsonDumps result))

/-- Outcome of handing a SQL string to the external SQLite engine, as
observed by fetch_data: either an exception is raised (err, covering
connect, execute and fetchall failures), or execution succeeds with
cursor.description being None (a statement with no result columns, such as
INSERT, UPDATE, DELETE or DROP) or being the list of result column names,
together with the fetched rows. -/
inductive ExecOutcome where
  | err (msg : String)
  | ok (description : Option (List String)) (rows : List Row)
deriving DecidableEq, Repr

/-- Model of fetch_data (src/sql.py lines 141-154).  On an execution
exception the bare except returns the empty list.  On success the code first
fetches the rows, then builds the column-name list from cursor.description;
when the statement produced no result columns, cursor.description is None
and iterating it raises a TypeError that the same bare except catches, so
the empty list is returned in that case as well.  Otherwise the column-name
header row is prepended to the fetched data rows. -/
def fetch_data (execute : String → ExecOutcome) (sql : String) : List Row :=
  match execute sql with
  | .err _ => []
  | .ok none _ => []
  | .ok (some columns) data => (columns.map Value.text) :: data

/-- The intermediate schema_info list built by get_database_schema
(src/sql.py lines 161-172): one rendered block per table listed in
sqlite_master with type table, each block being the table name line, the
columns heading and one line per column in declared order. -/
def schema_info (db : Store) : List String :=
  db.tables.map fun t =>
    "table: " ++ t.name ++ "\ncolumns:\n" ++
      String.intercalate "\n"
        (t.columns.map fun c => "col:" ++ c.name ++ ", type:" ++ c.type)

/-- Model of get_database_schema (src/sql.py lines 156-174): the blocks of
schema_info joined by a blank line. -/
def get_database_schema (db : Store) : String :=
  String.intercalate "\n\n" (schema_info db)

/-- Observable events of one pipeline run: lines printed, the two kinds of
oracle call, and the handing of a SQL string to the store for execution. -/
inductive Event where
  | printed (text : String)
  | sqlOracleCall (prompt : String)
  | execCall (sql : String)
  | chartOracleCall (prompt : String)
deriving DecidableEq, Repr

/-- Whether an event is an execution of SQL against the store. -/
def Event.isExecCall : Event → Bool
  | .execCall _ => true
  | _ => false

/-- Whether an event is a chart-generation oracle call. -/
def Event.isChartCall : Event → Bool
  | .chartOracleCall _ => true
  | _ => false

/-- How one pipeline run ends: an explicit exit with a status code, or
falling off the end of the script (process status zero). -/
inductive PipelineExit where
  | exitCode (code : Nat)
  | finished
deriving DecidableEq, Repr

/-- Model of the main script of src/sql.py lines 178-212 from step B on,
given the store left by create_database (step A): render the schema, read
and strip the requirement, generate SQL (one oracle call), abort with exit
status 1 on the BeyondError sentinel, otherwise execute the SQL, abort with
exit status 1 when fewer than two rows come back, and otherwise make the
chart-generation oracle call and print its answer.  The returned trace
lists the printed text and the external calls in program order. -/
def main_run (oracle : String → String) (execute : String → ExecOutcome)
    (db : Store) (rawInput : String) : List Event × PipelineExit :=
  let database_schema := get_database_schema db
  let requirement := pyStrip rawInput
  let text2sql : Text2SQL := { database_schema := database_schema }
  let sql := text2sql.gen_sql oracle requirement
  let events0 : List Event :=
    [Event.printed "Database Schema:", Event.printed database_schema,
     Event.sqlOracleCall (TEXT2SQL_PROMPT database_schema requirement)] ++
    (if sql = "BeyondError" then
       [Event.printed
         ("Error: Requirement exceeds provided schema for [" ++ requirement
           ++ "]")]
     else []) ++
    [Event.printed ("\nGenerated SQL:\n" ++ sql ++ "\n")]
  if sql = "BeyondError" then
    (events0, PipelineExit.exitCode 1)
  else
    let result := fetch_data execute sql
    let events1 := events0 ++ [Event.execCall sql]
    if result.isEmpty || result.length < 2 then
      (events1 ++
        [Event.printed "ChartError: No or insufficient data returned from SQL."],
       PipelineExit.exitCode 1)
    else
      let chart := Data2Chart.gen_chart ⟨⟩ oracle requirement result
      (events1 ++
        [Event.printed "Fetched Data:",
         Event.chartOracleCall (DATA2CHART_PROMPT requirement (jsonDumps result)),
         Event.printed "ECharts Option Configuration:",
         Event.printed chart],
       PipelineExit.finished)

/-- Whether a table name denotes a user table: SQLite reserves names
beginning with the seven characters of sqlite_ for its internal
bookkeeping tables. -/
def is_user_table (name : String) : Bool :=
  !(name.data.take 7 == "sqlite_".data)

/-- The max-age query appearing as the few-shot example of the SQL prompt. -/
def oldestQuerySQL : String :=
  "SELECT name, age FROM employees ORDER BY age DESC LIMIT 1;"

/-- A seeded employee (name, age, department_id) of maximal age: the
documented semantics of ORDER BY age DESC LIMIT 1 allow the external engine
to return any such row, the order among equal keys being
implementation-defined. -/
def isOldest (e : String × Int × Int) : Prop :=
  e ∈ seedEmployees ∧ ∀ e2 ∈ seedEmployees, e2.2.1 ≤ e.2.1

instance : DecidablePred isOldest := fun e => by
  unfold isOldest; infer_instance

/-- Modelled from the documented semantics of the external SQLite engine on
the fixed query oldestQuerySQL over the seeded employees table: the result
set has the two selected column names and exactly the projection of the one
row the engine picked. -/
def oldestQueryOutcome (e : String × Int × Int) : ExecOutcome :=
  ExecOutcome.ok (some ["name", "age"]) [[Value.text e.1, Value.int e.2.1]]

/-! Helper lemmas shared by the claim theorems. -/

/-- The accumulator of the intercalate worker is a prefix of its output. -/
theorem intercalate_go_prepend (s : String) : ∀ (as : List String) (acc : String),
    ∃ r, String.intercalate.go acc s as = acc ++ r := by
  intro as
  induction as with
  | nil => intro acc; exact ⟨"", by simp [String.intercalate.go]⟩
  | cons a as ih =>
    intro acc
    obtain ⟨r, hr⟩ := ih (acc ++ s ++ a)
    refine ⟨s ++ a ++ r, ?_⟩
    rw [String.intercalate.go, hr]
    simp [String.append_assoc]

/-- Every element handed to the intercalate worker occurs contiguously in its
output. -/
theorem intercalate_go_decomp (s : String) :
    ∀ (as : List String) (i : Nat) (hi : i < as.length) (acc : String),
    ∃ p q, String.intercalate.go acc s as = p ++ as.get ⟨i, hi⟩ ++ q := by
  intro as
  induction as with
  | nil => intro i hi; exact absurd hi (by simp)
  | cons a as ih =>
    intro i hi acc
    cases i with
    | zero =>
      obtain ⟨r, hr⟩ := intercalate_go_prepend s as (acc ++ s ++ a)
      refine ⟨acc ++ s, r, ?_⟩
      rw [String.intercalate.go, hr]
      simp [String.append_assoc]
    | succ j =>
      obtain ⟨p, q, hpq⟩ := ih j (by simpa using hi) (acc ++ s ++ a)
      exact ⟨p, q, by rw [String.intercalate.go, hpq]; rfl⟩

/-- Every element of a list occurs contiguously in its intercalation. -/
theorem string_intercalate_decomp (s : String) (as : List String) (i : Nat)
    (hi : i < as.length) :
    ∃ p q, String.intercalate s as = p ++ as.get ⟨i, hi⟩ ++ q := by
  cases as with
  | nil => exact absurd hi (by simp)
  | cons a as =>
    cases i with
    | zero =>
      obtain ⟨r, hr⟩ := intercalate_go_prepend s as a
      exact ⟨"", r, by rw [String.intercalate, hr]; rfl⟩
    | succ j =>
      obtain ⟨p, q, hpq⟩ := intercalate_go_decomp s as j (by simpa using hi) a
      exact ⟨p, q, by rw [String.intercalate, hpq]; rfl⟩

/-- When the generated SQL is the BeyondError sentinel, the run exits with
status 1 and its trace holds no execution and no chart oracle call. -/
theorem main_run_sentinel_case (oracle : String → String)
    (execute : String → ExecOutcome) (db : Store) (rawInput : String)
    (h : Text2SQL.gen_sql ⟨get_database_schema db⟩ oracle (pyStrip rawInput) = "BeyondError") :
    (main_run oracle execute db rawInput).2 = PipelineExit.exitCode 1 ∧
    (main_run oracle execute db rawInput).1.any Event.isExecCall = false ∧
    (main_run oracle execute db rawInput).1.any Event.isChartCall = false := by
  simp [main_run, h, Event.isExecCall, Event.isChartCall]

/-- When the generated SQL is not the sentinel and fewer than two rows come
back, the run prints the insufficient-data report and exits with status 1
without a chart oracle call. -/
theorem main_run_insufficient_case (oracle : String → String)
    (execute : String → ExecOutcome) (db : Store) (rawInput : String)
    (hne : Text2SQL.gen_sql ⟨get_database_schema db⟩ oracle (pyStrip rawInput) ≠ "BeyondError")
    (hlen : (fetch_data execute
      (Text2SQL.gen_sql ⟨get_database_schema db⟩ oracle (pyStrip rawInput))).length < 2) :
    (main_run oracle execute db rawInput).2 = PipelineExit.exitCode 1 ∧
    Event.printed "ChartError: No or insufficient data returned from SQL."
      ∈ (main_run oracle execute db rawInput).1 ∧
    (main_run oracle execute db rawInput).1.any Event.isChartCall = false := by
  simp [main_run, hne, hlen, Event.isChartCall]

/-- When the generated SQL is not the sentinel, the run hands it to the
store for execution. -/
theorem main_run_executes_case (oracle : String → String)
    (execute : String → ExecOutcome) (db : Store) (rawInput : String)
    (hne : Text2SQL.gen_sql ⟨get_database_schema db⟩ oracle (pyStrip rawInput) ≠ "BeyondError") :
    (main_run oracle execute db rawInput).1.any Event.isExecCall = true := by
  simp only [main_run, hne]
  simp only [ne_eq, hne, not_false_eq_true, if_neg]
  split <;> simp [Event.isExecCall]

/-! Claim theorems. -/

/-- C1: for every SQL string and every store state, if executing the
statement raises an execution exception then fetch_data catches it and
returns the empty result instead of propagating the exception, and a
pipeline run whose generated SQL is that statement exits with status 1
after printing the insufficient-data report. -/
theorem C1_exec_error_empty_result (execute : String → ExecOutcome)
    (sql msg : String) (h : execute sql = ExecOutcome.err msg) :
    fetch_data execute sql = [] ∧
    ∀ (oracle : String → String) (db : Store) (rawInput : String),
      Text2SQL.gen_sql ⟨get_database_schema db⟩ oracle (pyStrip rawInput) = sql →
      sql ≠ "BeyondError" →
      (main_run oracle execute db rawInput).2 = PipelineExit.exitCode 1 ∧
      Event.printed "ChartError: No or insufficient data returned from SQL."
        ∈ (main_run oracle execute db rawInput).1 := by
  have hempty : fetch_data execute sql = [] := by unfold fetch_data; rw [h]
  refine ⟨hempty, fun oracle db rawInput hgen hne => ?_⟩
  have h1 := main_run_insufficient_case oracle execute db rawInput
    (by rw [hgen]; exact hne) (by rw [hgen, hempty]; simp)
  exact ⟨h1.1, h1.2.1⟩

/-- C1 witness: a store on which every statement raises, with the oracle
answering a fixed SELECT. -/
theorem C1_exec_error_empty_result_witness :
    ((fun _ => ExecOutcome.err "m" : String → ExecOutcome) "SELECT 1"
      = ExecOutcome.err "m") ∧
    fetch_data (fun _ => ExecOutcome.err "m") "SELECT 1" = [] ∧
    (main_run (fun _ => "SELECT 1") (fun _ => ExecOutcome.err "m") ⟨[]⟩ "q").2
      = PipelineExit.exitCode 1 ∧
    Event.printed "ChartError: No or insufficient data returned from SQL."
      ∈ (main_run (fun _ => "SELECT 1") (fun _ => ExecOutcome.err "m") ⟨[]⟩ "q").1 := by
  have h := C1_exec_error_empty_result (fun _ => ExecOutcome.err "m") "SELECT 1" "m" rfl
  have h2 := h.2 (fun _ => "SELECT 1") ⟨[]⟩ "q" rfl (by decide)
  exact ⟨rfl, h.1, h2.1, h2.2⟩

/-- C2: whenever the query synthesizer returns the BeyondError sentinel, the
pipeline exits with a non-zero status and its trace holds no query
execution and no chart-generation oracle call. -/
theorem C2_sentinel_aborts (oracle : String → String)
    (execute : String → ExecOutcome) (db : Store) (rawInput : String)
    (h : Text2SQL.gen_sql ⟨get_database_schema db⟩ oracle (pyStrip rawInput)
      = "BeyondError") :
    (∃ n, (main_run oracle execute db rawInput).2 = PipelineExit.exitCode n ∧ n ≠ 0) ∧
    (main_run oracle execute db rawInput).1.any Event.isExecCall = false ∧
    (main_run oracle execute db rawInput).1.any Event.isChartCall = false := by
  obtain ⟨h1, h2, h3⟩ := main_run_sentinel_case oracle execute db rawInput h
  exact ⟨⟨1, h1, one_ne_zero⟩, h2, h3⟩

/-- C2 witness: an oracle that answers the sentinel. -/
theorem C2_sentinel_aborts_witness :
    Text2SQL.gen_sql ⟨get_database_schema ⟨[]⟩⟩ (fun _ => "BeyondError")
      (pyStrip "q") = "BeyondError" ∧
    (∃ n, (main_run (fun _ => "BeyondError") (fun _ => ExecOutcome.err "e") ⟨[]⟩ "q").2
      = PipelineExit.exitCode n ∧ n ≠ 0) ∧
    (main_run (fun _ => "BeyondError") (fun _ => ExecOutcome.err "e") ⟨[]⟩ "q").1.any
      Event.isExecCall = false ∧
    (main_run (fun _ => "BeyondError") (fun _ => ExecOutcome.err "e") ⟨[]⟩ "q").1.any
      Event.isChartCall = false :=
  ⟨rfl, C2_sentinel_aborts (fun _ => "BeyondError") (fun _ => ExecOutcome.err "e")
    ⟨[]⟩ "q" rfl⟩

/-- C4: for every SQL statement that executes successfully and yields a
result set, fetch_data returns the header row of column names followed by
all fetched data rows in fetch order: the header is at index 0 and row i of
the data is at index i + 1. -/
theorem C4_success_header_then_rows (execute : String → ExecOutcome)
    (sql : String) (cols : List String) (rows : List Row)
    (h : execute sql = ExecOutcome.ok (some cols) rows) :
    fetch_data execute sql = (cols.map Value.text) :: rows ∧
    (fetch_data execute sql).head? = some (cols.map Value.text) ∧
    ∀ i : Nat, (fetch_data execute sql)[i + 1]? = rows[i]? := by
  have h1 : fetch_data execute sql = (cols.map Value.text) :: rows := by
    unfold fetch_data; rw [h]
  exact ⟨h1, by rw [h1]; rfl, fun i => by rw [h1]; simp⟩

/-- C4 witness: a successful two-column query with one data row. -/
theorem C4_success_header_then_rows_witness :
    ((fun _ => ExecOutcome.ok (some ["name", "age"])
        [[Value.text "Frank", Value.int 50]] : String → ExecOutcome) oldestQuerySQL
      = ExecOutcome.ok (some ["name", "age"]) [[Value.text "Frank", Value.int 50]]) ∧
    fetch_data (fun _ => ExecOutcome.ok (some ["name", "age"])
        [[Value.text "Frank", Value.int 50]]) oldestQuerySQL
      = [[Value.text "name", Value.text "age"], [Value.text "Frank", Value.int 50]] ∧
    (fetch_data (fun _ => ExecOutcome.ok (some ["name", "age"])
        [[Value.text "Frank", Value.int 50]]) oldestQuerySQL).head?
      = some [Value.text "name", Value.text "age"] ∧
    ∀ i : Nat,
      (fetch_data (fun _ => ExecOutcome.ok (some ["name", "age"])
        [[Value.text "Frank", Value.int 50]]) oldestQuerySQL)[i + 1]?
      = [[Value.text "Frank", Value.int 50]][i]? :=
  ⟨rfl, C4_success_header_then_rows
    (fun _ => ExecOutcome.ok (some ["name", "age"]) [[Value.text "Frank", Value.int 50]])
    oldestQuerySQL ["name", "age"] [[Value.text "Frank", Value.int 50]] rfl⟩

/-- C5: whenever the fetched result is empty or is a single header row with
no data rows, the pipeline prints the insufficient-data report and exits
with status 1 without calling the chart synthesizer. -/
theorem C5_insufficient_aborts (oracle : String → String)
    (execute : String → ExecOutcome) (db : Store) (rawInput : String)
    (hne : Text2SQL.gen_sql ⟨get_database_schema db⟩ oracle (pyStrip rawInput)
      ≠ "BeyondError")
    (hres : fetch_data execute
        (Text2SQL.gen_sql ⟨get_database_schema db⟩ oracle (pyStrip rawInput)) = [] ∨
      ∃ hdr, fetch_data execute
        (Text2SQL.gen_sql ⟨get_database_schema db⟩ oracle (pyStrip rawInput)) = [hdr]) :
    (main_run oracle execute db rawInput).2 = PipelineExit.exitCode 1 ∧
    Event.printed "ChartError: No or insufficient data returned from SQL."
      ∈ (main_run oracle execute db rawInput).1 ∧
    (main_run oracle execute db rawInput).1.any Event.isChartCall = false := by
  refine main_run_insufficient_case oracle execute db rawInput hne ?_
  rcases hres with h | ⟨hdr, h⟩ <;> rw [h] <;> simp

/-- C5 witness: a successful query returning a header row and no data. -/
theorem C5_insufficient_aborts_witness :
    Text2SQL.gen_sql ⟨get_database_schema ⟨[]⟩⟩ (fun _ => "SELECT name FROM employees")
      (pyStrip "q") ≠ "BeyondError" ∧
    fetch_data (fun _ => ExecOutcome.ok (some ["name"]) [])
      (Text2SQL.gen_sql ⟨get_database_schema ⟨[]⟩⟩ (fun _ => "SELECT name FROM employees")
        (pyStrip "q")) = [[Value.text "name"]] ∧
    (main_run (fun _ => "SELECT name FROM employees")
      (fun _ => ExecOutcome.ok (some ["name"]) []) ⟨[]⟩ "q").2
      = PipelineExit.exitCode 1 ∧
    Event.printed "ChartError: No or insufficient data returned from SQL."
      ∈ (main_run (fun _ => "SELECT name FROM employees")
        (fun _ => ExecOutcome.ok (some ["name"]) []) ⟨[]⟩ "q").1 ∧
    (main_run (fun _ => "SELECT name FROM employees")
      (fun _ => ExecOutcome.ok (some ["name"]) []) ⟨[]⟩ "q").1.any
      Event.isChartCall = false := by
  have h := C5_insufficient_aborts (fun _ => "SELECT name FROM employees")
    (fun _ => ExecOutcome.ok (some ["name"]) []) ⟨[]⟩ "q" (by decide)
    (Or.inr ⟨[Value.text "name"], rfl⟩)
  exact ⟨by decide, rfl, h.1, h.2.1, h.2.2⟩

/-- C10: a successfully executed statement that produces no result columns
makes fetch_data return the empty list, the same value it returns for a
failed statement, so the two are indistinguishable at this interface. -/
theorem C10_nonquery_indistinguishable (execute : String → ExecOutcome)
    (sql : String) (rows : List Row)
    (h : execute sql = ExecOutcome.ok none rows) :
    fetch_data execute sql = [] ∧
    ∀ (execute2 : String → ExecOutcome) (sql2 msg : String),
      execute2 sql2 = ExecOutcome.err msg →
      fetch_data execute2 sql2 = fetch_data execute sql := by
  have h1 : fetch_data execute sql = [] := by unfold fetch_data; rw [h]
  refine ⟨h1, fun e2 s2 m h2 => ?_⟩
  have h3 : fetch_data e2 s2 = [] := by unfold fetch_data; rw [h2]
  rw [h1, h3]

/-- C10 witness: a DROP statement against a store that accepts it, compared
with a failing statement. -/
theorem C10_nonquery_indistinguishable_witness :
    ((fun _ => ExecOutcome.ok none [] : String → ExecOutcome) "DROP TABLE employees"
      = ExecOutcome.ok none []) ∧
    fetch_data (fun _ => ExecOutcome.ok none []) "DROP TABLE employees" = [] ∧
    fetch_data (fun _ => ExecOutcome.err "e") "SELECT 1"
      = fetch_data (fun _ => ExecOutcome.ok none []) "DROP TABLE employees" := by
  have h := C10_nonquery_indistinguishable (fun _ => ExecOutcome.ok none [])
    "DROP TABLE employees" [] rfl
  exact ⟨rfl, h.1, h.2 (fun _ => ExecOutcome.err "e") "SELECT 1" "e" rfl⟩

/-- C3 (amended): for every store with at least one table and at least one
column per table, get_database_schema renders exactly one block per table
listed in sqlite_master with type table (user tables and internal
bookkeeping tables alike), each block holding the table name followed by
one line per column in the form col:name, type:type, every column exactly
once in declared order, and the blocks joined by a blank line, each block
occurring contiguously in the rendered text. -/
theorem C3_schema_one_block_per_table (db : Store) (_h1 : db.tables ≠ [])
    (_h2 : ∀ t ∈ db.tables, t.columns ≠ []) :
    (schema_info db).length = db.tables.length ∧
    (∀ i (hi : i < db.tables.length) (hi2 : i < (schema_info db).length),
      (schema_info db).get ⟨i, hi2⟩ =
        "table: " ++ (db.tables.get ⟨i, hi⟩).name ++ "\ncolumns:\n" ++
          String.intercalate "\n"
            ((db.tables.get ⟨i, hi⟩).columns.map
              (fun c => "col:" ++ c.name ++ ", type:" ++ c.type))) ∧
    get_database_schema db = String.intercalate "\n\n" (schema_info db) ∧
    (∀ i (hi2 : i < (schema_info db).length),
      ∃ p q, get_database_schema db = p ++ (schema_info db).get ⟨i, hi2⟩ ++ q) := by
  refine ⟨by simp [schema_info], ?_, rfl, ?_⟩
  · intro i hi hi2
    simp [schema_info, List.get_eq_getElem, List.getElem_map]
  · intro i hi2
    exact string_intercalate_decomp "\n\n" (schema_info db) i hi2

/-- C3 witness: the seeded store. -/
theorem C3_schema_one_block_per_table_witness :
    (seededStore.tables ≠ [] ∧ ∀ t ∈ seededStore.tables, t.columns ≠ []) ∧
    ((schema_info seededStore).length = seededStore.tables.length ∧
    (∀ i (hi : i < seededStore.tables.length)
        (hi2 : i < (schema_info seededStore).length),
      (schema_info seededStore).get ⟨i, hi2⟩ =
        "table: " ++ (seededStore.tables.get ⟨i, hi⟩).name ++ "\ncolumns:\n" ++
          String.intercalate "\n"
            ((seededStore.tables.get ⟨i, hi⟩).columns.map
              (fun c => "col:" ++ c.name ++ ", type:" ++ c.type))) ∧
    get_database_schema seededStore
      = String.intercalate "\n\n" (schema_info seededStore) ∧
    (∀ i (hi2 : i < (schema_info seededStore).length),
      ∃ p q, get_database_schema seededStore
        = p ++ (schema_info seededStore).get ⟨i, hi2⟩ ++ q)) :=
  ⟨⟨by decide, by decide⟩,
    C3_schema_one_block_per_table seededStore (by decide) (by decide)⟩

set_option maxRecDepth 4000 in
/-- C3 counterexample: the store built by create_database satisfies the
premise of the claim, yet the rendered schema contains a block for
sqlite_sequence, which is not a user table, so get_database_schema does not
list only user tables. -/
theorem C3_lists_internal_table :
    (seededStore.tables ≠ [] ∧ ∀ t ∈ seededStore.tables, t.columns ≠ []) ∧
    (∃ t, t ∈ seededStore.tables ∧ is_user_table t.name = false) ∧
    (∃ p q, get_database_schema seededStore =
      p ++ "table: sqlite_sequence\ncolumns:\ncol:name, type:\ncol:seq, type:" ++ q) ∧
    is_user_table "sqlite_sequence" = false := by
  refine ⟨⟨by decide, by decide⟩, ⟨sqliteSequenceTable, by decide, by decide⟩,
    ⟨"table: employees\ncolumns:\ncol:id, type:INTEGER\ncol:name, type:TEXT\ncol:age, type:INTEGER\ncol:department_id, type:INTEGER\n\n",
     "\n\ntable: departments\ncolumns:\ncol:id, type:INTEGER\ncol:name, type:TEXT",
     by rfl⟩, by decide⟩

/-- C6 (amended): the BeyondSchema detection is exact, case-sensitive
string equality between the whitespace-stripped oracle response and the
sentinel: the generated SQL equals the sentinel exactly when the stripped
response does, any response whose stripped form differs from the sentinel
(including case variants) is passed on to execution, and any response whose
stripped form equals the sentinel aborts the run without execution. -/
theorem C6_sentinel_stripped_equality (oracle : String → String)
    (execute : String → ExecOutcome) (db : Store) (rawInput : String) :
    (Text2SQL.gen_sql ⟨get_database_schema db⟩ oracle (pyStrip rawInput) = "BeyondError"
      ↔ pyStrip (oracle (TEXT2SQL_PROMPT (get_database_schema db) (pyStrip rawInput)))
        = "BeyondError") ∧
    (pyStrip (oracle (TEXT2SQL_PROMPT (get_database_schema db) (pyStrip rawInput)))
        ≠ "BeyondError" →
      (main_run oracle execute db rawInput).1.any Event.isExecCall = true) ∧
    (pyStrip (oracle (TEXT2SQL_PROMPT (get_database_schema db) (pyStrip rawInput)))
        = "BeyondError" →
      (main_run oracle execute db rawInput).2 = PipelineExit.exitCode 1 ∧
      (main_run oracle execute db rawInput).1.any Event.isExecCall = false) := by
  refine ⟨Iff.rfl, fun h => ?_, fun h => ?_⟩
  · exact main_run_executes_case oracle execute db rawInput h
  · obtain ⟨h1, h2, _⟩ := main_run_sentinel_case oracle execute db rawInput h
    exact ⟨h1, h2⟩

/-- C6 witness: a lowercase case variant of the sentinel is passed on to
execution. -/
theorem C6_sentinel_stripped_equality_witness :
    pyStrip ((fun _ => "beyonderror" : String → String)
      (TEXT2SQL_PROMPT (get_database_schema ⟨[]⟩) (pyStrip "q"))) ≠ "BeyondError" ∧
    (main_run (fun _ => "beyonderror") (fun _ => ExecOutcome.err "e") ⟨[]⟩ "q").1.any
      Event.isExecCall = true :=
  ⟨by decide,
    (C6_sentinel_stripped_equality (fun _ => "beyonderror")
      (fun _ => ExecOutcome.err "e") ⟨[]⟩ "q").2.1 (by decide)⟩

/-- C6 counterexample: an oracle response that is not exactly the sentinel
(it carries a trailing newline) still makes the pipeline abort for the
BeyondSchema reason, because the comparison is made after stripping, so the
abort does not happen if and only if the raw response equals the sentinel
exactly. -/
theorem C6_whitespace_variant_aborts :
    ("BeyondError\n" : String) ≠ "BeyondError" ∧
    Text2SQL.gen_sql ⟨get_database_schema ⟨[]⟩⟩ (fun _ => "BeyondError\n") "q"
      = "BeyondError" ∧
    (main_run (fun _ => "BeyondError\n") (fun _ => ExecOutcome.err "e") ⟨[]⟩ "q").2
      = PipelineExit.exitCode 1 ∧
    (main_run (fun _ => "BeyondError\n") (fun _ => ExecOutcome.err "e") ⟨[]⟩ "q").1.any
      Event.isExecCall = false :=
  ⟨by decide, rfl, rfl, rfl⟩

/-- C7: create_database is idempotent on the database-file state, and when
the file already exists a second call is a no-op that leaves every table
and its row count unchanged. -/
theorem C7_create_database_idempotent (s : Option Store) :
    create_database (create_database s) = create_database s ∧
    (∀ st : Store, create_database (some st) = some st) ∧
    (∀ st : Store,
      (create_database (some st)).map
        (fun db => db.tables.map fun t => (t.name, t.rows.length))
      = some (st.tables.map fun t => (t.name, t.rows.length))) := by
  refine ⟨?_, fun st => rfl, fun st => rfl⟩
  cases s with
  | none => rfl
  | some st => rfl

/-- C8: on the freshly seeded store, the few-shot max-age query returns a
result with header name, age and exactly one data row, the projection of a
maximal-age seeded employee; 50 is the maximal age and any such row is
Bob aged 50 or Frank aged 50 (only Frank attains age 50, Bob being 45, so
the engine can in fact only return Frank). -/
theorem C8_oldest_employee_query (e : String × Int × Int) (h : isOldest e) :
    fetch_data (fun _ => oldestQueryOutcome e) oldestQuerySQL =
      [[Value.text "name", Value.text "age"], [Value.text e.1, Value.int e.2.1]] ∧
    (fetch_data (fun _ => oldestQueryOutcome e) oldestQuerySQL).length = 2 ∧
    e.2.1 = 50 ∧
    (∀ e2 ∈ seedEmployees, e2.2.1 ≤ 50) ∧
    ((e.1 = "Bob" ∧ e.2.1 = 50) ∨ (e.1 = "Frank" ∧ e.2.1 = 50)) ∧
    seedEmployees.length = 6 ∧
    seedDepartments = ["Human Resources", "Engineering", "Sales", "Marketing"] := by
  obtain ⟨hmem, hmax⟩ := h
  have key : ∀ e3 ∈ seedEmployees,
      (∀ e2 ∈ seedEmployees, e2.2.1 ≤ e3.2.1) → e3 = ("Frank", 50, 3) := by decide
  have he : e = ("Frank", 50, 3) := key e hmem hmax
  subst he
  exact ⟨rfl, rfl, rfl, by decide, Or.inr ⟨rfl, rfl⟩, rfl, rfl⟩

/-- C8 witness: Frank, aged 50, is a maximal-age seeded employee. -/
theorem C8_oldest_employee_query_witness :
    isOldest ("Frank", 50, 3) ∧
    fetch_data (fun _ => oldestQueryOutcome ("Frank", 50, 3)) oldestQuerySQL =
      [[Value.text "name", Value.text "age"], [Value.text "Frank", Value.int 50]] ∧
    (fetch_data (fun _ => oldestQueryOutcome ("Frank", 50, 3)) oldestQuerySQL).length = 2 :=
  ⟨by decide,
   (C8_oldest_employee_query ("Frank", 50, 3) (by decide)).1,
   (C8_oldest_employee_query ("Frank", 50, 3) (by decide)).2.1⟩

/-- C9 (amended): the chart synthesizer embeds the JSON serialization of
the result in the prompt and returns the oracle response with leading and
trailing whitespace stripped and no other transformation and no structural
validation: any response without surrounding whitespace, malformed
documents and the ChartError sentinel included, is returned verbatim. -/
theorem C9_chart_passthrough (oracle : String → String) (requirement : String)
    (result : List Row) :
    (∃ p q, DATA2CHART_PROMPT requirement (jsonDumps result)
      = p ++ jsonDumps result ++ q) ∧
    Data2Chart.gen_chart ⟨⟩ oracle requirement result
      = pyStrip (oracle (DATA2CHART_PROMPT requirement (jsonDumps result))) ∧
    (pyStrip (oracle (DATA2CHART_PROMPT requirement (jsonDumps result)))
        = oracle (DATA2CHART_PROMPT requirement (jsonDumps result)) →
      Data2Chart.gen_chart ⟨⟩ oracle requirement result
        = oracle (DATA2CHART_PROMPT requirement (jsonDumps result))) := by
  refine ⟨⟨"\n## Description\nYou are a JS engineer proficient in ECharts. You are provided with a requirement and SQL result.\nBased on the following rules, generate a valid ECharts option configuration (in JSON format) without extra comments:\n1. If there\x27s only one data point, use a gauge chart.\n2. If the requirement involves proportions, use a pie chart.\n3. If data is one-dimensional with <=6 data points, use a radar chart.\n4. Otherwise, use line, scatter, or multi-series bar chart as appropriate.\nAll numeric values must have at most two decimal places.\nReturn \"ChartError\" if data is empty or improperly formatted.\n\nRequirement: "
      ++ requirement ++ "\nSQL Result: ", "\nResult:\n", rfl⟩, rfl, fun h => h⟩

/-- C9 witness: a structurally malformed oracle response without
surrounding whitespace is returned verbatim. -/
theorem C9_chart_passthrough_witness :
    pyStrip ((fun _ => "not a json document" : String → String)
        (DATA2CHART_PROMPT "r" (jsonDumps [[Value.text "a"], [Value.int 1]])))
      = (fun _ => "not a json document" : String → String)
        (DATA2CHART_PROMPT "r" (jsonDumps [[Value.text "a"], [Value.int 1]])) ∧
    Data2Chart.gen_chart ⟨⟩ (fun _ => "not a json document") "r"
        [[Value.text "a"], [Value.int 1]]
      = "not a json document" :=
  ⟨by decide,
   (C9_chart_passthrough (fun _ => "not a json document") "r"
     [[Value.text "a"], [Value.int 1]]).2.2 (by decide)⟩

/-- C9 counterexample: an oracle response carrying a trailing newline is
not passed through unchanged: gen_chart returns its stripped form, so the
text the oracle returned and the ChartConfig the component returns
differ. -/
theorem C9_strips_response :
    (fun _ => "ChartError\n" : String → String)
        (DATA2CHART_PROMPT "r" (jsonDumps [[Value.text "a"], [Value.int 1]]))
      = "ChartError\n" ∧
    Data2Chart.gen_chart ⟨⟩ (fun _ => "ChartError\n") "r"
        [[Value.text "a"], [Value.int 1]]
      = "ChartError" ∧
    ("ChartError" : String) ≠ "ChartError\n" :=
  ⟨rfl, rfl, by decide⟩
